import Mathlib

/-!
# Verification of the Dekho Exam test-attempt and payment-reconciliation engine

Shallow embedding of the core controllers of the `dekho_exam` repository:

* `src/src/controllers/payment.controller.ts` — `verifyPayment` and the
  `payment.captured` branch of `handleRazorpayWebhook`;
* `src/src/controllers/test.controller.ts` — `startTest`, `submitTest`
  (entitlement gate, blueprint question assembly, scoring);
* the second controller version (`startTestAttempt`, `saveAnswer`,
  `submitTest`) that the routes wire under the same module name.

Database rows become Lean structures, the relational store becomes lists of
rows, Prisma queries become `List.find?` / `List.filter`, `$transaction`
blocks become atomic state updates, and the HMAC primitive is passed in as
an explicit function argument.  JavaScript numbers that hold marks are
modelled as `Rat`; a JS division that can produce a non-finite number is
modelled as an `Option Rat` (`none` = `NaN`/`±Infinity`).
-/

namespace DekhoExam

/-- Payment.status column: `PENDING → SUCCESS | FAILED`. -/
inductive PayStatus
  | PENDING
  | SUCCESS
  | FAILED
deriving DecidableEq, Repr

/-- The `SubscriptionType` enum from the Prisma schema. -/
inductive SubscriptionType
  | CATEGORY_SPECIFIC
  | ALL_CATEGORIES
deriving DecidableEq, Repr

/-- One `Payment` row.  The JSON `metadata` written by `createPaymentOrder`
(planId, planType, categoryId, durationDays) is flattened into fields. -/
structure Payment where
  id : Nat
  userId : Nat
  orderId : String
  status : PayStatus
  transactionId : Option String
  planId : Nat
  planType : SubscriptionType
  planCategoryId : Option Nat
  durationDays : Nat
deriving DecidableEq, Repr

/-- One `UserSubscription` row.  Timestamps are abstracted to `Nat`. -/
structure UserSubscription where
  userId : Nat
  planId : Nat
  type : SubscriptionType
  categoryId : Option Nat
  startDate : Nat
  endDate : Nat
  isActive : Bool
  autoRenew : Bool
deriving DecidableEq, Repr

/-- The slice of the database touched by the payment controller. -/
structure PayDB where
  payments : List Payment
  subs : List UserSubscription
deriving DecidableEq, Repr

/-- Model of `prisma.payment.findFirst` by gateway order id. -/
def findPayment (db : PayDB) (orderId : String) : Option Payment :=
  db.payments.find? (fun p => p.orderId == orderId)

/-- Model of `metadata.durationDays || 30`: JS `||` falls back on the falsy value `0`. -/
def effDuration (d : Nat) : Nat :=
  if d == 0 then 30 else d

/-- Outcome of an HTTP handler: a 2xx JSON response or a thrown `ApiError`. -/
inductive ApiOut
  | ok (code : Nat) (msg : String)
  | err (code : Nat) (msg : String)
deriving DecidableEq, Repr

/-- Model of `verifyPayment` (payment.controller.ts:76-161).  `hmac secret body` stands
for `crypto.createHmac("sha256", secret).update(body).digest("hex")`; the
missing request fields of the JS falsy check are modelled as `""`.
The `$transaction` of the success branch is one atomic update. -/
def verifyPayment (hmac : String → String → String) (secret : String)
    (callerId : Nat) (orderId paymentId sig : String) (now : Nat)
    (db : PayDB) : ApiOut × PayDB :=
  if orderId == "" || paymentId == "" || sig == "" then
    (.err 400 "Payment verification details missing", db)
  else
    match findPayment db orderId with
    | none => (.err 404 "Payment record not found", db)
    | some p =>
      if p.status == .SUCCESS then
        (.ok 200 "Payment already processed", db)
      else
        let expected := hmac secret (orderId ++ "|" ++ paymentId)
        if expected == sig then
          let payments := db.payments.map (fun q =>
            if q.id == p.id then
              { q with status := .SUCCESS, transactionId := some paymentId }
            else q)
          let sub : UserSubscription :=
            { userId := callerId, planId := p.planId, type := p.planType
              categoryId := p.planCategoryId, startDate := now
              endDate := now + effDuration p.durationDays
              isActive := true, autoRenew := false }
          (.ok 200 "Payment verified and subscription activated",
            { payments := payments, subs := db.subs ++ [sub] })
        else
          let payments := db.payments.map (fun q =>
            if q.id == p.id then { q with status := .FAILED } else q)
          (.err 400 "Payment signature verification failed",
            { db with payments := payments })

/-- The `payment.captured` branch of `handleRazorpayWebhook`
(payment.controller.ts:184-224), entered after the webhook body signature
check succeeded.  The webhook always acknowledges with 200, so only the
state effect is modelled.  Note the created subscription belongs to
`paymentRecord.userId` (not to any request caller) and `autoRenew` is left
at its schema default `false`. -/
def webhookPaymentCaptured (orderId paymentId : String) (now : Nat)
    (db : PayDB) : PayDB :=
  match findPayment db orderId with
  | none => db
  | some p =>
    if p.status != .SUCCESS then
      let payments := db.payments.map (fun q =>
        if q.id == p.id then
          { q with status := .SUCCESS, transactionId := some paymentId }
        else q)
      let sub : UserSubscription :=
        { userId := p.userId, planId := p.planId, type := p.planType
          categoryId := p.planCategoryId, startDate := now
          endDate := now + effDuration p.durationDays
          isActive := true, autoRenew := false }
      { payments := payments, subs := db.subs ++ [sub] }
    else db

/-! ## Test attempt engine: data model -/

/-- The `TestStatus` enum: the two extra values exist in the schema but no
in-scope code ever writes them. -/
inductive TStatus
  | IN_PROGRESS
  | SUBMITTED
  | EXPIRED
  | ABANDONED
deriving DecidableEq, Repr

/-- One `User` row (only the fields the attempt engine reads). -/
structure UserRow where
  id : Nat
  freeTestsUsed : Nat
deriving DecidableEq, Repr

/-- One `Test` row (fields the attempt engine reads).  `subjectId = none`
marks a multi-subject mock test driven by the category blueprint. -/
structure Test where
  id : Nat
  categoryId : Nat
  subjectId : Option Nat
  totalQuestions : Nat
  durationMinutes : Nat
  positiveMarks : Rat
  negativeMarks : Rat
  isPaid : Bool
  isActive : Bool
deriving DecidableEq, Repr

/-- One `Topic` row. -/
structure TopicRow where
  id : Nat
  subjectId : Nat
  isActive : Bool
deriving DecidableEq, Repr

/-- One `Question` row (fields the engine reads). -/
structure QuestionRow where
  id : Nat
  topicId : Nat
  correctOption : Int
  isActive : Bool
deriving DecidableEq, Repr

/-- One `CategorySubject` blueprint entry for the assembler. -/
structure BlueprintEntry where
  subjectId : Nat
  questionsPerTest : Nat
deriving DecidableEq, Repr

/-- One `TestAttempt` row.  `totalMarks` and `percentage` are nullable
decimals (`none` until submission; for the second controller version
`percentage` also stays `none` when the JS computation is non-finite). -/
structure Attempt where
  id : Nat
  userId : Nat
  testId : Nat
  attemptNumber : Nat
  status : TStatus
  questionIds : List Nat
  totalQuestions : Nat
  attemptedCount : Nat
  correctCount : Nat
  incorrectCount : Nat
  totalMarks : Option Rat
  percentage : Option Rat
deriving DecidableEq, Repr

/-- One `TestAttemptAnswer` row. -/
structure AnswerRow where
  id : Nat
  attemptId : Nat
  questionId : Nat
  selectedOption : Option Int
  isCorrect : Option Bool
  marksObtained : Rat
  timeSpent : Nat
deriving DecidableEq, Repr

/-- The slice of the database touched by the attempt engine.  `nextAttemptId`
and `nextAnswerId` model the id generator of the store. -/
structure EngineState where
  users : List UserRow
  tests : List Test
  topics : List TopicRow
  questions : List QuestionRow
  attempts : List Attempt
  answers : List AnswerRow
  subs : List UserSubscription
  nextAttemptId : Nat
  nextAnswerId : Nat
deriving DecidableEq, Repr

/-! ## startTest (test.controller.ts:83-248) -/

/-- The `userSubscription.findFirst` filter of the entitlement gate
(test.controller.ts:116-131): active, unexpired, and scoped to all
categories or to the test's category. -/
def subMatches (now userId categoryId : Nat) (s : UserSubscription) : Bool :=
  s.userId == userId && s.isActive && decide (now < s.endDate) &&
    (s.type == .ALL_CATEGORIES ||
      (s.type == .CATEGORY_SPECIFIC && s.categoryId == some categoryId))

/-- Model of `prisma.userSubscription.findFirst` in the entitlement gate. -/
def findActiveSubscription (st : EngineState) (now userId categoryId : Nat) :
    Option UserSubscription :=
  st.subs.find? (subMatches now userId categoryId)

/-- Lookup of a user's `freeTestsUsed` counter, for stating theorems. -/
def freeUsedOf (st : EngineState) (userId : Nat) : Option Nat :=
  (st.users.find? (fun u => u.id == userId)).map (fun u => u.freeTestsUsed)

/-- Result of a start handler. -/
inductive StartOut
  | started (attemptId : Nat)
  | resumed (attemptId : Nat)
  | fail (code : Nat) (msg : String)
deriving DecidableEq, Repr

/-- Model of `startTest` (test.controller.ts:83-248).  The random question assembly of
step 3 is externalized: `selectedQuestionIds` is the list the two shuffles
produced (its contents never influence control flow here and are studied
separately in `assembleBlueprint`).  The `tx.testAttempt.create` inserts
`attemptNumber: 1` (hard-coded), so under the schema's unique
(userId, testId, attemptNumber) index it throws whenever an attempt
numbered 1 already exists for this (user, test); `createFails` models a
create failure from any other cause.  Since the increment of
`freeTestsUsed` runs inside the same `$transaction`, either kind of create
failure rolls the whole transaction back. -/
def startTest (userId testId : Nat) (selectedQuestionIds : List Nat)
    (createFails : Bool) (now : Nat) (st : EngineState) :
    StartOut × EngineState :=
  match st.tests.find? (fun t => t.id == testId) with
  | none => (.fail 404 "Test not found", st)
  | some test =>
    if !test.isActive then (.fail 400 "This test is currently inactive", st)
    else
      match st.users.find? (fun u => u.id == userId) with
      | none => (.fail 404 "User not found", st)
      | some user =>
        -- FREE_LIMIT = 2
        let consumeFreeAttempt := test.isPaid && decide (user.freeTestsUsed < 2)
        if test.isPaid && !(decide (user.freeTestsUsed < 2)) &&
            (findActiveSubscription st now userId test.categoryId).isNone then
          (.fail 403 "You have used your free attempts. Please purchase a subscription to access this test.", st)
        else
          let duplicateKey := st.attempts.any (fun a =>
            a.userId == userId && a.testId == testId && a.attemptNumber == 1)
          if createFails || duplicateKey then
            (.fail 500 "transaction rolled back", st)
          else
            let attempt : Attempt :=
              { id := st.nextAttemptId, userId := userId, testId := testId
                attemptNumber := 1, status := .IN_PROGRESS
                questionIds := selectedQuestionIds
                totalQuestions := selectedQuestionIds.length
                attemptedCount := 0, correctCount := 0, incorrectCount := 0
                totalMarks := none, percentage := none }
            let users' :=
              if consumeFreeAttempt then
                st.users.map (fun u =>
                  if u.id == userId then
                    { u with freeTestsUsed := u.freeTestsUsed + 1 }
                  else u)
              else st.users
            (.started st.nextAttemptId,
              { st with attempts := st.attempts ++ [attempt], users := users'
                        nextAttemptId := st.nextAttemptId + 1 })

/-! ## startTestAttempt (second controller version, part_009:900-993) -/

/-- Model of `startTestAttempt` (part_009:900-993).  It first resumes any `IN_PROGRESS` attempt of
(user, test); otherwise it computes the next attempt number from the
largest existing one and creates a new attempt.  It performs no
entitlement check of any kind.  `fetchedQuestionIds` is the list returned
by the category-wide `question.findMany(take: totalQuestions)` query. -/
def startTestAttempt (userId testId : Nat) (fetchedQuestionIds : List Nat)
    (st : EngineState) : StartOut × EngineState :=
  match st.attempts.find? (fun a =>
      a.userId == userId && a.testId == testId && a.status == .IN_PROGRESS) with
  | some existing => (.resumed existing.id, st)
  | none =>
    match st.tests.find? (fun t => t.id == testId) with
    | none => (.fail 404 "Test not found", st)
    | some test =>
      let nextAttemptNumber :=
        ((st.attempts.filter (fun a =>
            a.userId == userId && a.testId == testId)).map
          (fun a => a.attemptNumber)).foldr Nat.max 0 + 1
      if fetchedQuestionIds.isEmpty then
        (.fail 400 "No questions available for this test", st)
      else
        let attempt : Attempt :=
          { id := st.nextAttemptId, userId := userId, testId := testId
            attemptNumber := nextAttemptNumber, status := .IN_PROGRESS
            questionIds := fetchedQuestionIds
            totalQuestions := test.totalQuestions
            attemptedCount := 0, correctCount := 0, incorrectCount := 0
            totalMarks := none, percentage := none }
        (.started st.nextAttemptId,
          { st with attempts := st.attempts ++ [attempt]
                    nextAttemptId := st.nextAttemptId + 1 })

/-! ## submitTest (test.controller.ts:250-368): scoring loop -/

/-- One element of the `answers` request body of `submitTest`:
`{ questionId, selectedOption, timeSpent }`.  A JS `null`/absent
`selectedOption` is `none`; `timeSpent || 0` is pre-applied. -/
structure SubmittedAnswer where
  questionId : Nat
  selectedOption : Option Int
  timeSpent : Nat
deriving DecidableEq, Repr

/-- JS truthiness of a nullable number (`null`, `undefined` and `0` are
falsy). -/
def jsTruthy : Option Int → Bool
  | none => false
  | some v => v != 0

/-- Model of `ans.selectedOption && ans.selectedOption > 0`. -/
def isPositiveSel : Option Int → Bool
  | none => false
  | some v => decide (0 < v)

/-- One entry pushed onto `processedAnswers`. -/
structure ProcessedAnswer where
  questionId : Nat
  selectedOption : Option Int
  isCorrect : Option Bool
  marksObtained : Rat
  timeSpent : Nat
deriving DecidableEq, Repr

/-- Accumulator of the scoring loop of `submitTest`. -/
structure ScoreAcc where
  correctCount : Nat
  incorrectCount : Nat
  attemptedCount : Nat
  totalScore : Rat
  processed : List ProcessedAnswer
deriving DecidableEq, Repr

/-- Loop-entry values of `submitTest` before the first iteration. -/
def initialScoreAcc : ScoreAcc :=
  { correctCount := 0, incorrectCount := 0, attemptedCount := 0
    totalScore := 0, processed := [] }

/-- One iteration of the `for (const ans of answers)` loop
(test.controller.ts:291-326).  An answer whose question id is missing from
`questionMap` is skipped entirely. -/
def tcProcessOne (qmap : List (Nat × Int)) (pos neg : Rat)
    (acc : ScoreAcc) (ans : SubmittedAnswer) : ScoreAcc :=
  match qmap.lookup ans.questionId with
  | none => acc
  | some correctOption =>
    if isPositiveSel ans.selectedOption then
      if ans.selectedOption == some correctOption then
        { acc with correctCount := acc.correctCount + 1
                   attemptedCount := acc.attemptedCount + 1
                   totalScore := acc.totalScore + pos
                   processed := acc.processed ++
                     [{ questionId := ans.questionId
                        selectedOption := ans.selectedOption
                        isCorrect := some true, marksObtained := pos
                        timeSpent := ans.timeSpent }] }
      else
        { acc with incorrectCount := acc.incorrectCount + 1
                   attemptedCount := acc.attemptedCount + 1
                   totalScore := acc.totalScore - neg
                   processed := acc.processed ++
                     [{ questionId := ans.questionId
                        selectedOption := ans.selectedOption
                        isCorrect := some false, marksObtained := -neg
                        timeSpent := ans.timeSpent }] }
    else
      -- not attempted: marksObtained stays 0; `selectedOption || null`
      -- and `selectedOption ? isCorrect : null` follow JS truthiness
      { acc with processed := acc.processed ++
          [{ questionId := ans.questionId
             selectedOption :=
               if jsTruthy ans.selectedOption then ans.selectedOption else none
             isCorrect :=
               if jsTruthy ans.selectedOption then some false else none
             marksObtained := 0, timeSpent := ans.timeSpent }] }

/-- The whole scoring loop of `submitTest`. -/
def tcScore (qmap : List (Nat × Int)) (pos neg : Rat)
    (answers : List SubmittedAnswer) : ScoreAcc :=
  answers.foldl (tcProcessOne qmap pos neg) initialScoreAcc

/-- The `questionMap`: correct options of exactly the questions whose ids are in
the attempt's frozen `questionIds` (test.controller.ts:272-278). -/
def buildQMap (questions : List QuestionRow) (qids : List Nat) :
    List (Nat × Int) :=
  (questions.filter (fun q => qids.contains q.id)).map
    (fun q => (q.id, q.correctOption))

/-- The `percentage` computation of `submitTest` (test.controller.ts:329-330):
`maxMarks > 0 ? (totalScore / maxMarks) * 100 : 0`. -/
def tcPercentage (totalQuestions : Nat) (pos totalScore : Rat) : Rat :=
  let maxMarks : Rat := (totalQuestions : Rat) * pos
  if 0 < maxMarks then totalScore / maxMarks * 100 else 0

/-- Response summary of `submitTest`.  The stored and returned `percentage`
is kept unrounded here; the HTTP layer additionally applies
`toFixed(2)` to the returned copy only. -/
structure SubmitSummary where
  totalScore : Rat
  correctCount : Nat
  incorrectCount : Nat
  unattemptedCount : Int
  percentage : Rat
deriving DecidableEq, Repr

/-- Result of a submit handler (the second controller version returns only
the attempt id). -/
inductive SubmitOut
  | ok (summary : SubmitSummary)
  | okId (attemptId : Nat)
  | fail (code : Nat) (msg : String)
deriving DecidableEq, Repr

/-- Model of `submitTest` (test.controller.ts:250-368).  The `$transaction` persisting
the attempt header and the `createMany` of answers is one atomic update.
The inner `test` join of the `findUnique` cannot fail under the schema's
foreign key; the 404 of that branch is dead code kept for totality. -/
def submitTestTC (callerId attemptId : Nat) (answers : List SubmittedAnswer)
    (st : EngineState) : SubmitOut × EngineState :=
  match st.attempts.find? (fun a => a.id == attemptId) with
  | none => (.fail 404 "Test attempt not found", st)
  | some attempt =>
    if attempt.userId != callerId then (.fail 403 "Unauthorized", st)
    else if attempt.status == .SUBMITTED then
      (.fail 400 "Test already submitted", st)
    else
      match st.tests.find? (fun t => t.id == attempt.testId) with
      | none => (.fail 404 "Test attempt not found", st)
      | some test =>
        let qmap := buildQMap st.questions attempt.questionIds
        let acc := tcScore qmap test.positiveMarks test.negativeMarks answers
        let percentage :=
          tcPercentage attempt.totalQuestions test.positiveMarks acc.totalScore
        let attempts' := st.attempts.map (fun a =>
          if a.id == attemptId then
            { a with status := .SUBMITTED
                     attemptedCount := acc.attemptedCount
                     correctCount := acc.correctCount
                     incorrectCount := acc.incorrectCount
                     totalMarks := some acc.totalScore
                     percentage := some percentage }
          else a)
        let newRows := acc.processed.enum.map (fun pr =>
          { id := st.nextAnswerId + pr.1, attemptId := attemptId
            questionId := pr.2.questionId
            selectedOption := pr.2.selectedOption
            isCorrect := pr.2.isCorrect
            marksObtained := pr.2.marksObtained
            timeSpent := pr.2.timeSpent : AnswerRow })
        (.ok { totalScore := acc.totalScore
               correctCount := acc.correctCount
               incorrectCount := acc.incorrectCount
               unattemptedCount :=
                 (attempt.totalQuestions : Int) - (acc.attemptedCount : Int)
               percentage := percentage },
         { st with attempts := attempts'
                   answers := st.answers ++ newRows
                   nextAnswerId := st.nextAnswerId + acc.processed.length })

/-! ## submitTest (second controller version, part_009:1079-1144) -/

/-- Aggregate of the second submit handler. -/
structure P9Score where
  correctCount : Nat
  incorrectCount : Nat
  unattemptedCount : Int
  totalMarks : Rat
  percentage : Option Rat
deriving DecidableEq, Repr

/-- Loop accumulator: `unattempted` starts at
`totalQuestions - userAnswers.length` (a JS number, possibly negative). -/
structure P9Acc where
  correct : Nat
  incorrect : Nat
  unattempted : Int
deriving DecidableEq, Repr

/-- One iteration over a saved answer row joined with its question's
`correctOption` (part_009:1105-1124). -/
def p9Step (acc : P9Acc) (r : Option Int × Int) : P9Acc :=
  match r.1 with
  | none => { acc with unattempted := acc.unattempted + 1 }
  | some sel =>
    if sel == r.2 then { acc with correct := acc.correct + 1 }
    else { acc with incorrect := acc.incorrect + 1 }

/-- The score computation of the second `submitTest`
(part_009:1097-1127): no divide-by-zero guard exists, so the JS
`percentage` is non-finite when `totalQuestions * positiveMarks = 0`;
that non-finite number is modelled as `none`. -/
def p9ScoreCore (totalQuestions : Nat) (pos neg : Rat)
    (rows : List (Option Int × Int)) : P9Score :=
  let acc := rows.foldl p9Step
    { correct := 0, incorrect := 0
      unattempted := (totalQuestions : Int) - (rows.length : Int) }
  let totalMarks := (acc.correct : Rat) * pos - (acc.incorrect : Rat) * neg
  let denom : Rat := (totalQuestions : Rat) * pos
  { correctCount := acc.correct, incorrectCount := acc.incorrect
    unattemptedCount := acc.unattempted
    totalMarks := totalMarks
    percentage := if denom == 0 then none else some (totalMarks / denom * 100) }

/-- The second `submitTest` (part_009:1079-1144).  It fetches every saved
answer row of the attempt (`testAttemptAnswer.findMany({ where:
{ attemptId } })`) with its joined question and scores all of them — the
attempt's frozen `questionIds` list is never consulted.  A missing joined
question is impossible under the foreign key and skipped for totality.
`percentage` is stored as computed; a non-finite value (`none`) would be
rejected by the DECIMAL column at the database layer. -/
def submitTestP9 (attemptId : Nat) (st : EngineState) :
    SubmitOut × EngineState :=
  match st.attempts.find? (fun a => a.id == attemptId) with
  | none => (.fail 400 "Invalid attempt or already submitted", st)
  | some attempt =>
    if attempt.status == .SUBMITTED then
      (.fail 400 "Invalid attempt or already submitted", st)
    else
      match st.tests.find? (fun t => t.id == attempt.testId) with
      | none => (.fail 400 "Invalid attempt or already submitted", st)
      | some test =>
        let userAnswers := st.answers.filter (fun r => r.attemptId == attemptId)
        let rows := userAnswers.filterMap (fun r =>
          (st.questions.find? (fun q => q.id == r.questionId)).map
            (fun q => (r.selectedOption, q.correctOption)))
        let score :=
          p9ScoreCore attempt.totalQuestions test.positiveMarks
            test.negativeMarks rows
        let answers' := st.answers.map (fun r =>
          if r.attemptId == attemptId then
            match r.selectedOption,
                st.questions.find? (fun q => q.id == r.questionId) with
            | some sel, some q =>
              { r with isCorrect := some (sel == q.correctOption)
                       marksObtained :=
                         if sel == q.correctOption then test.positiveMarks
                         else -test.negativeMarks }
            | _, _ => r
          else r)
        let attempts' := st.attempts.map (fun a =>
          if a.id == attemptId then
            { a with status := .SUBMITTED
                     correctCount := score.correctCount
                     incorrectCount := score.incorrectCount
                     attemptedCount := score.correctCount + score.incorrectCount
                     totalMarks := some score.totalMarks
                     percentage := score.percentage }
          else a)
        (.okId attemptId,
          { st with attempts := attempts', answers := answers' })

/-! ## Blueprint question assembly (test.controller.ts:172-206, scenario B) -/

/-- Model of `item.subject.topics`: the topic ids of a subject.  The
blueprint join applies no `isActive` filter on topics. -/
def subjectTopicIds (topics : List TopicRow) (subjectId : Nat) : List Nat :=
  (topics.filter (fun t => t.subjectId == subjectId)).map (fun t => t.id)

/-- Model of the per-subject candidate query: active questions whose topic
belongs to the subject. -/
def subjectPool (topics : List TopicRow) (questions : List QuestionRow)
    (subjectId : Nat) : List Nat :=
  (questions.filter (fun q =>
    (subjectTopicIds topics subjectId).contains q.topicId &&
      q.isActive)).map (fun q => q.id)

/-- Scenario B of the question generation: for each blueprint entry,
shuffle that subject's pool, take `questionsPerTest`, concatenate, and
shuffle the combined list.  The JS shuffles
(`sort(() => 0.5 - Math.random())`) always permute their input; they are
passed in as functions, with the permutation property a hypothesis of the
theorems.  The re-fetch of full question rows by the selected ids returns
the same ids (possibly reordered by the store); that reordering is
absorbed into the shuffle arguments. -/
def assembleBlueprint (topics : List TopicRow) (questions : List QuestionRow)
    (blueprint : List BlueprintEntry)
    (shuffle finalShuffle : List Nat → List Nat) : List Nat :=
  finalShuffle (blueprint.foldl (fun acc item =>
    acc ++ (shuffle (subjectPool topics questions item.subjectId)).take
      item.questionsPerTest) [])

/-! ## Shared helper lemmas -/

/-- Lemma: `find?` commutes with a row update that leaves the searched key
untouched: the first match is the updated first match. -/
theorem find?_map_pres {α : Type} (f : α → α) (pred : α → Bool)
    (l : List α) (p : α) (hf : ∀ q, pred (f q) = pred q)
    (h : l.find? pred = some p) :
    (l.map f).find? pred = some (f p) := by
  induction l with
  | nil => simp at h
  | cons a l ih =>
    cases hpa : pred a with
    | true =>
      rw [List.find?_cons_of_pos _ hpa] at h
      rw [List.map_cons,
        List.find?_cons_of_pos _ (by rw [hf a]; exact hpa)]
      cases h
      rfl
    | false =>
      rw [List.find?_cons_of_neg _ (by simp [hpa])] at h
      rw [List.map_cons,
        List.find?_cons_of_neg _ (by simp [hf a, hpa])]
      exact ih h

/-! ## C1: reconciliation after SUCCESS is a no-op -/

/-- C1. Once the payment of a gateway order has status `SUCCESS`, a
repeated `verifyPayment` call answers "Payment already processed" and
leaves the whole payment database unchanged, and a repeated
`payment.captured` webhook delivery also leaves it unchanged: no second
`Subscription` row is ever created and the payment stays `SUCCESS`. -/
theorem success_reconciliation_is_noop
    (hmac : String → String → String) (secret : String) (callerId : Nat)
    (orderId paymentId sig : String) (now : Nat) (db : PayDB) (p : Payment)
    (hfind : findPayment db orderId = some p) (hs : p.status = .SUCCESS)
    (ho : orderId ≠ "") (hp : paymentId ≠ "") (hg : sig ≠ "") :
    (verifyPayment hmac secret callerId orderId paymentId sig now db).1
        = .ok 200 "Payment already processed" ∧
    (verifyPayment hmac secret callerId orderId paymentId sig now db).2 = db ∧
    webhookPaymentCaptured orderId paymentId now db = db := by
  have hcond : (orderId == "" || paymentId == "" || sig == "") = false := by
    simp [ho, hp, hg]
  refine ⟨?_, ?_, ?_⟩ <;>
    simp [verifyPayment, webhookPaymentCaptured, hcond, hfind, hs]

/-- Concrete database for the C1 witness: one already-successful payment. -/
def c1pay : Payment :=
  { id := 1, userId := 7, orderId := "order_1", status := .SUCCESS
    transactionId := some "pay_1", planId := 3
    planType := .ALL_CATEGORIES, planCategoryId := none, durationDays := 30 }

/-- Concrete database for the C1 witness. -/
def c1db : PayDB := { payments := [c1pay], subs := [] }

/-- Witness for C1 at a concrete already-successful payment. -/
theorem success_reconciliation_is_noop_witness :
    findPayment c1db "order_1" = some c1pay ∧ c1pay.status = .SUCCESS ∧
    ("order_1" : String) ≠ "" ∧ ("pay_1" : String) ≠ "" ∧
    ("sig" : String) ≠ "" ∧
    ((verifyPayment (fun _ _ => "sig") "sec" 7 "order_1" "pay_1" "sig" 0
        c1db).1 = .ok 200 "Payment already processed" ∧
      (verifyPayment (fun _ _ => "sig") "sec" 7 "order_1" "pay_1" "sig" 0
        c1db).2 = c1db ∧
      webhookPaymentCaptured "order_1" "pay_1" 0 c1db = c1db) :=
  ⟨by decide, rfl, by decide, by decide, by decide,
    success_reconciliation_is_noop (fun _ _ => "sig") "sec" 7 "order_1"
      "pay_1" "sig" 0 c1db c1pay (by decide) rfl (by decide) (by decide)
      (by decide)⟩

/-! ## C4: mismatched signature on verifyPayment -/

/-- Concrete payment for the C4 counterexample: already `SUCCESS`. -/
def c4pay : Payment :=
  { id := 1, userId := 7, orderId := "order_4", status := .SUCCESS
    transactionId := some "pay_4", planId := 3
    planType := .ALL_CATEGORIES, planCategoryId := none, durationDays := 30 }

/-- Concrete database for the C4 counterexample. -/
def c4db : PayDB := { payments := [c4pay], subs := [] }

/-- C4 counterexample.  The claim says every `verifyPayment` call with a
mismatched signature fails with a validation error "regardless of any
other input".  But the idempotency early-return precedes the signature
check: on an already-`SUCCESS` payment a call whose signature differs
from the expected HMAC still answers 200 "Payment already processed". -/
theorem mismatched_signature_can_return_ok :
    ("bad" : String) ≠
        (fun (_ _ : String) => "good") "sec" ("order_4" ++ "|" ++ "pay_4") ∧
    (verifyPayment (fun _ _ => "good") "sec" 7 "order_4" "pay_4" "bad" 0
        c4db).1 = .ok 200 "Payment already processed" :=
  ⟨by decide, by decide⟩

/-- C4 amended.  If the order's payment record exists and is not already
`SUCCESS`, a `verifyPayment` call with a mismatched signature fails with
the 400 signature-verification error, marks the payment `FAILED` (so it
never becomes `SUCCESS` from that request), and creates no Subscription
row.  (For an already-`SUCCESS` payment the call is the C1 no-op
instead.) -/
theorem mismatched_signature_rejects_and_never_activates
    (hmac : String → String → String) (secret : String) (callerId : Nat)
    (orderId paymentId sig : String) (now : Nat) (db : PayDB) (p : Payment)
    (hfind : findPayment db orderId = some p) (hns : p.status ≠ .SUCCESS)
    (ho : orderId ≠ "") (hp : paymentId ≠ "") (hg : sig ≠ "")
    (hsig : sig ≠ hmac secret (orderId ++ "|" ++ paymentId)) :
    (verifyPayment hmac secret callerId orderId paymentId sig now db).1
        = .err 400 "Payment signature verification failed" ∧
    (verifyPayment hmac secret callerId orderId paymentId sig now db).2.subs
        = db.subs ∧
    findPayment
        (verifyPayment hmac secret callerId orderId paymentId sig now db).2
        orderId = some { p with status := .FAILED } := by
  have hcond : (orderId == "" || paymentId == "" || sig == "") = false := by
    simp [ho, hp, hg]
  have hb : (p.status == PayStatus.SUCCESS) = false := by
    simp [hns]
  have hsb : (hmac secret (orderId ++ "|" ++ paymentId) == sig) = false := by
    simp [Ne.symm hsig]
  refine ⟨?_, ?_, ?_⟩
  · simp [verifyPayment, hcond, hfind, hb, hsb]
  · simp [verifyPayment, hcond, hfind, hb, hsb]
  · simp only [verifyPayment, hcond, Bool.false_eq_true, if_false, hfind,
      hb, hsb, if_true]
    unfold findPayment at hfind ⊢
    simp only []
    rw [find?_map_pres
      (fun q => if q.id == p.id then { q with status := .FAILED } else q)
      (fun q => q.orderId == orderId) db.payments p
      (by intro q; dsimp only; split <;> rfl) hfind]
    simp

/-- Concrete pending payment for the C4 witness. -/
def c4penPay : Payment :=
  { id := 2, userId := 7, orderId := "order_5", status := .PENDING
    transactionId := none, planId := 3
    planType := .ALL_CATEGORIES, planCategoryId := none, durationDays := 30 }

/-- Concrete database for the C4 witness. -/
def c4penDb : PayDB := { payments := [c4penPay], subs := [] }

/-- Witness for the amended C4 at a concrete pending payment. -/
theorem mismatched_signature_rejects_witness :
    findPayment c4penDb "order_5" = some c4penPay ∧
    c4penPay.status ≠ .SUCCESS ∧
    ("order_5" : String) ≠ "" ∧ ("pay_5" : String) ≠ "" ∧
    ("bad" : String) ≠ "" ∧
    ("bad" : String) ≠
      (fun (_ _ : String) => "good") "sec" ("order_5" ++ "|" ++ "pay_5") ∧
    ((verifyPayment (fun _ _ => "good") "sec" 7 "order_5" "pay_5" "bad" 0
        c4penDb).1 = .err 400 "Payment signature verification failed" ∧
      (verifyPayment (fun _ _ => "good") "sec" 7 "order_5" "pay_5" "bad" 0
        c4penDb).2.subs = c4penDb.subs ∧
      findPayment
        (verifyPayment (fun _ _ => "good") "sec" 7 "order_5" "pay_5" "bad" 0
          c4penDb).2 "order_5" = some { c4penPay with status := .FAILED }) :=
  ⟨by decide, by decide, by decide, by decide, by decide, by decide,
    mismatched_signature_rejects_and_never_activates (fun _ _ => "good")
      "sec" 7 "order_5" "pay_5" "bad" 0 c4penDb c4penPay (by decide)
      (by decide) (by decide) (by decide) (by decide) (by decide)⟩

/-! ## C10: which user owns the created subscription -/

/-- C10.  A successful `verifyPayment` appends a subscription owned by
the authenticated caller (`req.user.id`), while the webhook path appends
one owned by `paymentRecord.userId`; the two reconciliation paths create
a subscription for the same owner exactly when the caller is the
payment's recorded owner. -/
theorem subscription_owner_by_reconciliation_path
    (hmac : String → String → String) (secret : String) (callerId : Nat)
    (orderId paymentId sig : String) (now : Nat) (db : PayDB) (p : Payment)
    (hfind : findPayment db orderId = some p) (hns : p.status ≠ .SUCCESS)
    (ho : orderId ≠ "") (hp : paymentId ≠ "") (hg : sig ≠ "")
    (hsig : sig = hmac secret (orderId ++ "|" ++ paymentId)) :
    (verifyPayment hmac secret callerId orderId paymentId sig now db).2.subs
        = db.subs ++
          [{ userId := callerId, planId := p.planId, type := p.planType
             categoryId := p.planCategoryId, startDate := now
             endDate := now + effDuration p.durationDays
             isActive := true, autoRenew := false }] ∧
    (webhookPaymentCaptured orderId paymentId now db).subs
        = db.subs ++
          [{ userId := p.userId, planId := p.planId, type := p.planType
             categoryId := p.planCategoryId, startDate := now
             endDate := now + effDuration p.durationDays
             isActive := true, autoRenew := false }] ∧
    ((verifyPayment hmac secret callerId orderId paymentId sig now
        db).2.subs.getLast?.map (fun s => s.userId)) = some callerId ∧
    ((webhookPaymentCaptured orderId paymentId now
        db).subs.getLast?.map (fun s => s.userId)) = some p.userId ∧
    (((verifyPayment hmac secret callerId orderId paymentId sig now
          db).2.subs.getLast?.map (fun s => s.userId))
        = ((webhookPaymentCaptured orderId paymentId now
          db).subs.getLast?.map (fun s => s.userId))
      ↔ callerId = p.userId) := by
  have hcond : (orderId == "" || paymentId == "" || sig == "") = false := by
    simp [ho, hp, hg]
  have hb : (p.status == PayStatus.SUCCESS) = false := by
    simp [hns]
  have hsb : (hmac secret (orderId ++ "|" ++ paymentId) == sig) = true := by
    simp [hsig]
  have h1 :
      (verifyPayment hmac secret callerId orderId paymentId sig now
        db).2.subs = db.subs ++
          [{ userId := callerId, planId := p.planId, type := p.planType
             categoryId := p.planCategoryId, startDate := now
             endDate := now + effDuration p.durationDays
             isActive := true, autoRenew := false }] := by
    simp [verifyPayment, hcond, hfind, hb, hsb]
  have h2 :
      (webhookPaymentCaptured orderId paymentId now db).subs = db.subs ++
          [{ userId := p.userId, planId := p.planId, type := p.planType
             categoryId := p.planCategoryId, startDate := now
             endDate := now + effDuration p.durationDays
             isActive := true, autoRenew := false }] := by
    simp [webhookPaymentCaptured, hfind, hb, hns]
  refine ⟨h1, h2, ?_, ?_, ?_⟩
  · rw [h1, List.getLast?_concat]; rfl
  · rw [h2, List.getLast?_concat]; rfl
  · rw [h1, h2, List.getLast?_concat, List.getLast?_concat]
    simp

/-- Concrete pending payment for the C10 witness, owned by user 9. -/
def c10pay : Payment :=
  { id := 5, userId := 9, orderId := "order_10", status := .PENDING
    transactionId := none, planId := 4
    planType := .CATEGORY_SPECIFIC, planCategoryId := some 2
    durationDays := 90 }

/-- Concrete database for the C10 witness. -/
def c10db : PayDB := { payments := [c10pay], subs := [] }

/-- Witness for C10: caller 7 verifies a payment owned by user 9; the verify
path creates a subscription for 7, the webhook path for 9. -/
theorem subscription_owner_by_reconciliation_path_witness :
    findPayment c10db "order_10" = some c10pay ∧
    c10pay.status ≠ .SUCCESS ∧
    ("order_10" : String) ≠ "" ∧ ("pay_10" : String) ≠ "" ∧
    ("sig" : String) ≠ "" ∧
    ("sig" : String) =
      (fun (_ _ : String) => "sig") "sec" ("order_10" ++ "|" ++ "pay_10") ∧
    ((verifyPayment (fun _ _ => "sig") "sec" 7 "order_10" "pay_10" "sig" 0
        c10db).2.subs = c10db.subs ++
          [{ userId := 7, planId := c10pay.planId, type := c10pay.planType
             categoryId := c10pay.planCategoryId, startDate := 0
             endDate := 0 + effDuration c10pay.durationDays
             isActive := true, autoRenew := false }] ∧
      (webhookPaymentCaptured "order_10" "pay_10" 0 c10db).subs
        = c10db.subs ++
          [{ userId := c10pay.userId, planId := c10pay.planId
             type := c10pay.planType, categoryId := c10pay.planCategoryId
             startDate := 0, endDate := 0 + effDuration c10pay.durationDays
             isActive := true, autoRenew := false }] ∧
      ((verifyPayment (fun _ _ => "sig") "sec" 7 "order_10" "pay_10" "sig" 0
          c10db).2.subs.getLast?.map (fun s => s.userId)) = some 7 ∧
      ((webhookPaymentCaptured "order_10" "pay_10" 0
          c10db).subs.getLast?.map (fun s => s.userId)) = some c10pay.userId ∧
      (((verifyPayment (fun _ _ => "sig") "sec" 7 "order_10" "pay_10" "sig" 0
            c10db).2.subs.getLast?.map (fun s => s.userId))
          = ((webhookPaymentCaptured "order_10" "pay_10" 0
            c10db).subs.getLast?.map (fun s => s.userId))
        ↔ 7 = c10pay.userId)) :=
  ⟨by decide, by decide, by decide, by decide, by decide, rfl,
    subscription_owner_by_reconciliation_path (fun _ _ => "sig") "sec" 7
      "order_10" "pay_10" "sig" 0 c10db c10pay (by decide) (by decide)
      (by decide) (by decide) (by decide) rfl⟩

/-! ## C2: idempotence of the start operation while an attempt is open -/

/-- C2 amended (holds for `startTestAttempt`).  While an `IN_PROGRESS`
attempt exists for (user, test), `startTestAttempt` returns that
attempt's id and changes nothing: no new `Attempt` row, no counter
mutation of any kind. -/
theorem startTestAttempt_resumes_in_progress
    (userId testId : Nat) (qs : List Nat) (st : EngineState) (a : Attempt)
    (h : st.attempts.find? (fun a =>
        a.userId == userId && a.testId == testId &&
          a.status == .IN_PROGRESS) = some a) :
    startTestAttempt userId testId qs st = (.resumed a.id, st) := by
  simp [startTestAttempt, h]

/-- Concrete test row shared by the C2 scenario. -/
def c2test : Test :=
  { id := 2, categoryId := 1, subjectId := some 3, totalQuestions := 1
    durationMinutes := 60, positiveMarks := 1, negativeMarks := 1/4
    isPaid := true, isActive := true }

/-- Concrete open attempt shared by the C2 scenario. -/
def c2attempt : Attempt :=
  { id := 10, userId := 1, testId := 2, attemptNumber := 1
    status := .IN_PROGRESS, questionIds := [5], totalQuestions := 1
    attemptedCount := 0, correctCount := 0, incorrectCount := 0
    totalMarks := none, percentage := none }

/-- Concrete engine state for the C2 scenario: user 1 already holds open
attempt 10 on paid test 2 and has consumed one free credit. -/
def c2st : EngineState :=
  { users := [{ id := 1, freeTestsUsed := 1 }], tests := [c2test]
    topics := [], questions := [], attempts := [c2attempt], answers := []
    subs := [], nextAttemptId := 11, nextAnswerId := 1 }

/-- C2 counterexample (for `startTest`).  With attempt 10 (numbered 1)
still `IN_PROGRESS` for (user 1, test 2), a second `startTest` call does
not return that attempt: having no resume check it re-creates attempt
number 1, hits the unique (userId, testId, attemptNumber) index inside
the `$transaction`, and fails with a 500 error.  The rollback leaves the
row count and the free counter unchanged, but the repeated start is an
error, not the idempotent resume the claim states. -/
theorem startTest_repeated_start_errors_instead_of_resuming :
    (c2st.attempts.find? (fun a =>
        a.userId == 1 && a.testId == 2 &&
          a.status == .IN_PROGRESS)).map (fun a => a.id) = some 10 ∧
    startTest 1 2 [5] false 0 c2st
      = (.fail 500 "transaction rolled back", c2st) ∧
    (StartOut.fail 500 "transaction rolled back") ≠ .resumed 10 ∧
    (startTest 1 2 [5] false 0 c2st).2.attempts.length = 1 ∧
    freeUsedOf c2st 1 = some 1 ∧
    freeUsedOf (startTest 1 2 [5] false 0 c2st).2 1 = some 1 :=
  ⟨rfl, rfl, by decide, rfl, rfl, rfl⟩

/-- Witness for the amended C2 at the concrete open-attempt state. -/
theorem startTestAttempt_resumes_in_progress_witness :
    c2st.attempts.find? (fun a =>
        a.userId == 1 && a.testId == 2 &&
          a.status == .IN_PROGRESS) = some c2attempt ∧
    startTestAttempt 1 2 [5] c2st = (.resumed c2attempt.id, c2st) :=
  ⟨rfl, startTestAttempt_resumes_in_progress 1 2 [5] c2st c2attempt rfl⟩

/-! ## C3: exhausted free attempts without subscription -/

/-- C3 amended (holds for `startTest`).  A user with
`freeTestsUsed ≥ 2` and no active, unexpired subscription scoped to all
categories or the test's category is denied a paid test with the 403
error, and the state is entirely unchanged. -/
theorem startTest_denies_exhausted_user
    (userId testId : Nat) (qs : List Nat) (createFails : Bool) (now : Nat)
    (st : EngineState) (test : Test) (user : UserRow)
    (hT : st.tests.find? (fun t => t.id == testId) = some test)
    (hA : test.isActive = true) (hP : test.isPaid = true)
    (hU : st.users.find? (fun u => u.id == userId) = some user)
    (hF : 2 ≤ user.freeTestsUsed)
    (hS : findActiveSubscription st now userId test.categoryId = none) :
    startTest userId testId qs createFails now st
      = (.fail 403 "You have used your free attempts. Please purchase a subscription to access this test.",
         st) := by
  have hlt : ¬ (user.freeTestsUsed < 2) := by omega
  simp [startTest, hT, hA, hU, hP, hS, hlt]

/-- Concrete paid test for the C3 scenario. -/
def c3test : Test :=
  { id := 2, categoryId := 1, subjectId := some 3, totalQuestions := 1
    durationMinutes := 60, positiveMarks := 1, negativeMarks := 1/4
    isPaid := true, isActive := true }

/-- Concrete user who exhausted both free credits. -/
def c3user : UserRow := { id := 1, freeTestsUsed := 2 }

/-- Concrete engine state for the C3 scenario: no subscriptions, no open
attempts. -/
def c3st : EngineState :=
  { users := [c3user], tests := [c3test], topics := [], questions := []
    attempts := [], answers := [], subs := [], nextAttemptId := 1
    nextAnswerId := 1 }

/-- C3 counterexample (for `startTestAttempt`).  The same exhausted,
unsubscribed user starting the same paid test through `startTestAttempt`
is not denied: the handler performs no entitlement check and creates a
new attempt row. -/
theorem startTestAttempt_grants_exhausted_user :
    freeUsedOf c3st 1 = some 2 ∧
    c3st.subs = [] ∧
    c3test.isPaid = true ∧
    (startTestAttempt 1 2 [5] c3st).1 = .started 1 ∧
    (startTestAttempt 1 2 [5] c3st).2.attempts.length = 1 :=
  ⟨rfl, rfl, rfl, rfl, rfl⟩

/-- Witness for the amended C3 at the concrete exhausted-user state. -/
theorem startTest_denies_exhausted_user_witness :
    c3st.tests.find? (fun t => t.id == 2) = some c3test ∧
    c3test.isActive = true ∧ c3test.isPaid = true ∧
    c3st.users.find? (fun u => u.id == 1) = some c3user ∧
    2 ≤ c3user.freeTestsUsed ∧
    findActiveSubscription c3st 0 1 c3test.categoryId = none ∧
    startTest 1 2 [5] false 0 c3st
      = (.fail 403 "You have used your free attempts. Please purchase a subscription to access this test.",
         c3st) :=
  ⟨rfl, rfl, rfl, rfl, by decide, rfl,
    startTest_denies_exhausted_user 1 2 [5] false 0 c3st c3test c3user
      rfl rfl rfl rfl (by decide) rfl⟩

/-! ## C5: free-credit consumption is tied to attempt creation -/

/-- C5.  For a user with `freeTestsUsed < 2` starting a paid test (with no
attempt numbered 1 already present, so the hard-coded `attemptNumber: 1`
insert can succeed): when the attempt `create` succeeds the counter rises
by exactly one and one attempt row is appended; when the `create` fails
the transaction rolls back and the state — counter included — is exactly
the input state, so mere evaluation of entitlement mutates nothing. -/
theorem startTest_free_credit_atomic
    (userId testId : Nat) (qs : List Nat) (now : Nat) (st : EngineState)
    (test : Test) (user : UserRow)
    (hT : st.tests.find? (fun t => t.id == testId) = some test)
    (hA : test.isActive = true) (hP : test.isPaid = true)
    (hU : st.users.find? (fun u => u.id == userId) = some user)
    (hF : user.freeTestsUsed < 2)
    (hN : st.attempts.any (fun a =>
        a.userId == userId && a.testId == testId &&
          a.attemptNumber == 1) = false) :
    (startTest userId testId qs false now st).1 = .started st.nextAttemptId ∧
    freeUsedOf (startTest userId testId qs false now st).2 userId
      = some (user.freeTestsUsed + 1) ∧
    (startTest userId testId qs false now st).2.attempts.length
      = st.attempts.length + 1 ∧
    startTest userId testId qs true now st
      = (.fail 500 "transaction rolled back", st) := by
  have hd : decide (user.freeTestsUsed < 2) = true := by simpa using hF
  have hpred : (user.id == userId) = true := by
    simpa using List.find?_some hU
  refine ⟨?_, ?_, ?_, ?_⟩
  · simp [startTest, hT, hA, hU, hP, hd, hN]
  · simp only [startTest, hT, hA, hU, hP, hd, hN, Bool.and_true,
      Bool.true_and, Bool.not_true, Bool.and_false, Bool.false_and,
      Bool.false_eq_true, Bool.false_or, Bool.or_self, if_false, if_true,
      freeUsedOf]
    rw [find?_map_pres
      (fun u => if u.id == userId then
        { u with freeTestsUsed := u.freeTestsUsed + 1 } else u)
      (fun u => u.id == userId) st.users user
      (by intro q; dsimp only; split <;> rfl) hU]
    simp [hpred]
  · simp [startTest, hT, hA, hU, hP, hd, hN]
  · simp [startTest, hT, hA, hU, hP, hd]

/-- Concrete user with one remaining free credit for the C5 witness. -/
def c5user : UserRow := { id := 1, freeTestsUsed := 1 }

/-- Concrete engine state for the C5 witness. -/
def c5st : EngineState :=
  { users := [c5user], tests := [c3test], topics := [], questions := []
    attempts := [], answers := [], subs := [], nextAttemptId := 1
    nextAnswerId := 1 }

/-- Witness for C5 at a concrete one-credit-left state. -/
theorem startTest_free_credit_atomic_witness :
    c5st.tests.find? (fun t => t.id == 2) = some c3test ∧
    c3test.isActive = true ∧ c3test.isPaid = true ∧
    c5st.users.find? (fun u => u.id == 1) = some c5user ∧
    c5user.freeTestsUsed < 2 ∧
    c5st.attempts.any (fun a =>
        a.userId == 1 && a.testId == 2 && a.attemptNumber == 1) = false ∧
    ((startTest 1 2 [5] false 0 c5st).1 = .started c5st.nextAttemptId ∧
      freeUsedOf (startTest 1 2 [5] false 0 c5st).2 1
        = some (c5user.freeTestsUsed + 1) ∧
      (startTest 1 2 [5] false 0 c5st).2.attempts.length
        = c5st.attempts.length + 1 ∧
      startTest 1 2 [5] true 0 c5st
        = (.fail 500 "transaction rolled back", c5st)) :=
  ⟨rfl, rfl, rfl, rfl, by decide, rfl,
    startTest_free_credit_atomic 1 2 [5] 0 c5st c3test c5user rfl
      rfl rfl rfl (by decide) rfl⟩

/-! ## C6: submit is rejected on an already-submitted attempt -/

/-- C6.  Both submit handlers refuse an attempt whose status is already
`SUBMITTED` with a 400 error thrown before any computation, leaving every
stored count, mark, percentage and answer row — the entire state —
unchanged. -/
theorem submit_on_submitted_attempt_fails
    (callerId attemptId : Nat) (answers : List SubmittedAnswer)
    (st : EngineState) (a : Attempt)
    (hfind : st.attempts.find? (fun a => a.id == attemptId) = some a)
    (hown : a.userId = callerId)
    (hs : a.status = .SUBMITTED) :
    submitTestTC callerId attemptId answers st
      = (.fail 400 "Test already submitted", st) ∧
    submitTestP9 attemptId st
      = (.fail 400 "Invalid attempt or already submitted", st) := by
  have hne : (a.userId != callerId) = false := by simp [hown]
  have hsb : (a.status == TStatus.SUBMITTED) = true := by simp [hs]
  constructor
  · simp [submitTestTC, hfind, hne, hsb]
  · simp [submitTestP9, hfind, hsb]

/-- Concrete already-submitted attempt for the C6 witness, with stored
results. -/
def c6attempt : Attempt :=
  { id := 1, userId := 1, testId := 2, attemptNumber := 1
    status := .SUBMITTED, questionIds := [5], totalQuestions := 1
    attemptedCount := 1, correctCount := 1, incorrectCount := 0
    totalMarks := some 1, percentage := some 100 }

/-- Concrete engine state for the C6 witness: the attempt and its stored
answer row. -/
def c6st : EngineState :=
  { users := [{ id := 1, freeTestsUsed := 0 }], tests := [c3test]
    topics := [], questions := [{ id := 5, topicId := 1, correctOption := 1
                                  isActive := true }]
    attempts := [c6attempt]
    answers := [{ id := 1, attemptId := 1, questionId := 5
                  selectedOption := some 1, isCorrect := some true
                  marksObtained := 1, timeSpent := 10 }]
    subs := [], nextAttemptId := 2, nextAnswerId := 2 }

/-- Witness for C6 at a concrete submitted attempt. -/
theorem submit_on_submitted_attempt_fails_witness :
    c6st.attempts.find? (fun a => a.id == 1) = some c6attempt ∧
    c6attempt.userId = 1 ∧
    c6attempt.status = .SUBMITTED ∧
    (submitTestTC 1 1 [] c6st = (.fail 400 "Test already submitted", c6st) ∧
      submitTestP9 1 c6st
        = (.fail 400 "Invalid attempt or already submitted", c6st)) :=
  ⟨rfl, rfl, rfl,
    submit_on_submitted_attempt_fails 1 1 [] c6st c6attempt rfl rfl rfl⟩

/-! ## C7: scoring and the frozen question-id list -/

/-- An id absent from the frozen list never appears in `questionMap`. -/
theorem lookup_buildQMap_eq_none (questions : List QuestionRow)
    (qids : List Nat) (x : Nat) (h : qids.contains x = false) :
    (buildQMap questions qids).lookup x = none := by
  induction questions with
  | nil => rfl
  | cons q qs ih =>
    unfold buildQMap
    rw [List.filter_cons]
    by_cases hq : qids.contains q.id
    · simp only [hq, if_true, List.map_cons]
      have hxq : (x == q.id) = false := by
        cases hxq2 : x == q.id with
        | true =>
          rw [show x = q.id from by simpa using hxq2, hq] at h
          cases h
        | false => rfl
      simp only [List.lookup, hxq]
      exact ih
    · simp only [hq, if_false, Bool.false_eq_true]
      exact ih

/-- C7 amended (holds for `submitTest` of test.controller.ts).  The
scoring loop consults only `questionMap`, built from the attempt's frozen
`questionIds`: a submitted answer whose question id is not in the frozen
list is skipped, contributing nothing to counts, marks, percentage, or
the persisted answer rows — deleting it from the request leaves the whole
scoring result unchanged. -/
theorem tc_scoring_ignores_unknown_question_ids
    (questions : List QuestionRow) (qids : List Nat) (pos neg : Rat)
    (l1 l2 : List SubmittedAnswer) (ans : SubmittedAnswer)
    (hmem : qids.contains ans.questionId = false) :
    tcScore (buildQMap questions qids) pos neg (l1 ++ ans :: l2)
      = tcScore (buildQMap questions qids) pos neg (l1 ++ l2) := by
  have hlook : (buildQMap questions qids).lookup ans.questionId = none :=
    lookup_buildQMap_eq_none questions qids ans.questionId hmem
  unfold tcScore
  rw [List.foldl_append, List.foldl_append, List.foldl_cons]
  congr 1
  simp [tcProcessOne, hlook]

/-- Witness for the amended C7: an answer for question 99, absent from the
frozen list `[1, 2]`, changes nothing. -/
theorem tc_scoring_ignores_unknown_question_ids_witness :
    List.contains [1, 2] 99 = false ∧
    tcScore (buildQMap [{ id := 1, topicId := 1, correctOption := 1
                          isActive := true }] [1, 2]) 1 1
        ([{ questionId := 1, selectedOption := some 1, timeSpent := 0 }] ++
          { questionId := 99, selectedOption := some 1, timeSpent := 0 } ::
            [])
      = tcScore (buildQMap [{ id := 1, topicId := 1, correctOption := 1
                              isActive := true }] [1, 2]) 1 1
          ([{ questionId := 1, selectedOption := some 1, timeSpent := 0 }] ++
            []) :=
  ⟨rfl,
    tc_scoring_ignores_unknown_question_ids
      [{ id := 1, topicId := 1, correctOption := 1, isActive := true }]
      [1, 2] 1 1
      [{ questionId := 1, selectedOption := some 1, timeSpent := 0 }] []
      { questionId := 99, selectedOption := some 1, timeSpent := 0 } rfl⟩

/-- Concrete attempt for the C7 counterexample: frozen list `[1]` only. -/
def c7attempt : Attempt :=
  { id := 1, userId := 1, testId := 2, attemptNumber := 1
    status := .IN_PROGRESS, questionIds := [1], totalQuestions := 1
    attemptedCount := 0, correctCount := 0, incorrectCount := 0
    totalMarks := none, percentage := none }

/-- Concrete test for the C7 counterexample. -/
def c7test : Test :=
  { id := 2, categoryId := 1, subjectId := some 3, totalQuestions := 1
    durationMinutes := 60, positiveMarks := 1, negativeMarks := 1
    isPaid := false, isActive := true }

/-- Concrete engine state for the C7 counterexample: the only saved answer
row is for question 2, which is not in the attempt's frozen list. -/
def c7st : EngineState :=
  { users := [{ id := 1, freeTestsUsed := 0 }], tests := [c7test]
    topics := []
    questions := [{ id := 1, topicId := 1, correctOption := 1
                    isActive := true },
                  { id := 2, topicId := 1, correctOption := 1
                    isActive := true }]
    attempts := [c7attempt]
    answers := [{ id := 1, attemptId := 1, questionId := 2
                  selectedOption := some 1, isCorrect := none
                  marksObtained := 0, timeSpent := 0 }]
    subs := [], nextAttemptId := 2, nextAnswerId := 2 }

/-- C7 counterexample (for the second controller version).  `saveAnswer`
never checks membership in the frozen list and its `submitTest` scores
every saved answer row of the attempt: an answer for question 2 — not in
the frozen `questionIds = [1]` — is counted as correct and attempted, so
it does contribute to the stored counts. -/
theorem p9_scores_answer_outside_frozen_list :
    c7attempt.questionIds = [1] ∧
    List.contains c7attempt.questionIds 2 = false ∧
    c7st.answers.map (fun r => r.questionId) = [2] ∧
    ((submitTestP9 1 c7st).2.attempts.find? (fun a => a.id == 1)).map
        (fun a => (a.correctCount, a.attemptedCount)) = some (1, 1) :=
  ⟨rfl, rfl, rfl, rfl⟩

/-! ## C8: the scoring aggregate -/

/-- One scoring iteration preserves the aggregate invariant
`attempted = correct + incorrect` and
`totalScore = correct·pos − incorrect·neg`. -/
theorem tcProcessOne_aggregate (qmap : List (Nat × Int)) (pos neg : Rat)
    (acc : ScoreAcc) (ans : SubmittedAnswer)
    (h1 : acc.attemptedCount = acc.correctCount + acc.incorrectCount)
    (h2 : acc.totalScore = (acc.correctCount : Rat) * pos
        - (acc.incorrectCount : Rat) * neg) :
    (tcProcessOne qmap pos neg acc ans).attemptedCount
      = (tcProcessOne qmap pos neg acc ans).correctCount
        + (tcProcessOne qmap pos neg acc ans).incorrectCount ∧
    (tcProcessOne qmap pos neg acc ans).totalScore
      = ((tcProcessOne qmap pos neg acc ans).correctCount : Rat) * pos
        - ((tcProcessOne qmap pos neg acc ans).incorrectCount : Rat) * neg := by
  unfold tcProcessOne
  cases hl : qmap.lookup ans.questionId with
  | none => exact ⟨h1, h2⟩
  | some c =>
    by_cases hp : isPositiveSel ans.selectedOption = true
    · by_cases he : (ans.selectedOption == some c) = true
      · simp only [hp, he, if_true]
        refine ⟨?_, ?_⟩
        · show acc.attemptedCount + 1
            = (acc.correctCount + 1) + acc.incorrectCount
          omega
        · show acc.totalScore + pos
            = ((acc.correctCount + 1 : Nat) : Rat) * pos
              - (acc.incorrectCount : Rat) * neg
          rw [h2]
          push_cast
          ring
      · simp only [hp, he, if_true, Bool.false_eq_true, if_false]
        refine ⟨?_, ?_⟩
        · show acc.attemptedCount + 1
            = acc.correctCount + (acc.incorrectCount + 1)
          omega
        · show acc.totalScore - neg
            = (acc.correctCount : Rat) * pos
              - ((acc.incorrectCount + 1 : Nat) : Rat) * neg
          rw [h2]
          push_cast
          ring
    · simp only [hp, Bool.false_eq_true, if_false]
      exact ⟨h1, h2⟩

/-- The whole scoring loop establishes the aggregate invariant from any
accumulator that satisfies it. -/
theorem tcScore_fold_aggregate (qmap : List (Nat × Int)) (pos neg : Rat)
    (answers : List SubmittedAnswer) :
    ∀ acc : ScoreAcc,
      acc.attemptedCount = acc.correctCount + acc.incorrectCount →
      acc.totalScore = (acc.correctCount : Rat) * pos
          - (acc.incorrectCount : Rat) * neg →
      ((answers.foldl (tcProcessOne qmap pos neg) acc).attemptedCount
          = (answers.foldl (tcProcessOne qmap pos neg) acc).correctCount
            + (answers.foldl (tcProcessOne qmap pos neg) acc).incorrectCount
        ∧ (answers.foldl (tcProcessOne qmap pos neg) acc).totalScore
          = ((answers.foldl (tcProcessOne qmap pos neg)
              acc).correctCount : Rat) * pos
            - ((answers.foldl (tcProcessOne qmap pos neg)
              acc).incorrectCount : Rat) * neg) := by
  induction answers with
  | nil => intro acc h1 h2; exact ⟨h1, h2⟩
  | cons ans rest ih =>
    intro acc h1 h2
    rw [List.foldl_cons]
    have step := tcProcessOne_aggregate qmap pos neg acc ans h1 h2
    exact ih (tcProcessOne qmap pos neg acc ans) step.1 step.2

/-- The aggregate invariant of `tcScore` from the empty accumulator. -/
theorem tcScore_aggregate (qmap : List (Nat × Int)) (pos neg : Rat)
    (answers : List SubmittedAnswer) :
    (tcScore qmap pos neg answers).attemptedCount
      = (tcScore qmap pos neg answers).correctCount
        + (tcScore qmap pos neg answers).incorrectCount ∧
    (tcScore qmap pos neg answers).totalScore
      = ((tcScore qmap pos neg answers).correctCount : Rat) * pos
        - ((tcScore qmap pos neg answers).incorrectCount : Rat) * neg := by
  unfold tcScore
  exact tcScore_fold_aggregate qmap pos neg answers initialScoreAcc rfl
    (by simp [initialScoreAcc])

/-- Ten questions, all with correct option 1, for the C8 instance. -/
def c8questions : List QuestionRow :=
  [{ id := 1, topicId := 1, correctOption := 1, isActive := true },
   { id := 2, topicId := 1, correctOption := 1, isActive := true },
   { id := 3, topicId := 1, correctOption := 1, isActive := true },
   { id := 4, topicId := 1, correctOption := 1, isActive := true },
   { id := 5, topicId := 1, correctOption := 1, isActive := true },
   { id := 6, topicId := 1, correctOption := 1, isActive := true },
   { id := 7, topicId := 1, correctOption := 1, isActive := true },
   { id := 8, topicId := 1, correctOption := 1, isActive := true },
   { id := 9, topicId := 1, correctOption := 1, isActive := true },
   { id := 10, topicId := 1, correctOption := 1, isActive := true }]

/-- Test with positiveMarks 1 and negativeMarks 1/4 for the C8 instance. -/
def c8test : Test :=
  { id := 2, categoryId := 1, subjectId := some 3, totalQuestions := 10
    durationMinutes := 60, positiveMarks := 1, negativeMarks := 1/4
    isPaid := false, isActive := true }

/-- Open attempt over the ten frozen questions for the C8 instance. -/
def c8attempt : Attempt :=
  { id := 1, userId := 1, testId := 2, attemptNumber := 1
    status := .IN_PROGRESS, questionIds := [1, 2, 3, 4, 5, 6, 7, 8, 9, 10]
    totalQuestions := 10, attemptedCount := 0, correctCount := 0
    incorrectCount := 0, totalMarks := none, percentage := none }

/-- Engine state for the C8 instance. -/
def c8st : EngineState :=
  { users := [{ id := 1, freeTestsUsed := 0 }], tests := [c8test]
    topics := [], questions := c8questions, attempts := [c8attempt]
    answers := [], subs := [], nextAttemptId := 2, nextAnswerId := 1 }

/-- Three correct answers, two incorrect, five unattempted. -/
def c8answers : List SubmittedAnswer :=
  [{ questionId := 1, selectedOption := some 1, timeSpent := 0 },
   { questionId := 2, selectedOption := some 1, timeSpent := 0 },
   { questionId := 3, selectedOption := some 1, timeSpent := 0 },
   { questionId := 4, selectedOption := some 2, timeSpent := 0 },
   { questionId := 5, selectedOption := some 2, timeSpent := 0 }]

/-- C8 amended (test.controller.ts scorer).  The scoring aggregate of
`submitTest` satisfies the reference definition — `attemptedCount =
correct + incorrect`, `totalMarks = correct·pos − incorrect·neg`, the
divide-by-zero guard `percentage = 0` when `totalQuestions = 0` or
`positiveMarks = 0` — and on the concrete instance (pos 1, neg 1/4, 10
questions, 3 correct / 2 incorrect / 5 unattempted) it yields totalMarks
5/2 and percentage 25.  The second controller version computes the same
counts and marks but omits the zero guard (see the counterexample). -/
theorem scoring_aggregate_matches_reference
    (qmap : List (Nat × Int)) (pos neg : Rat)
    (answers : List SubmittedAnswer) (tq : Nat) (x : Rat) :
    (tcScore qmap pos neg answers).attemptedCount
      = (tcScore qmap pos neg answers).correctCount
        + (tcScore qmap pos neg answers).incorrectCount ∧
    (tcScore qmap pos neg answers).totalScore
      = ((tcScore qmap pos neg answers).correctCount : Rat) * pos
        - ((tcScore qmap pos neg answers).incorrectCount : Rat) * neg ∧
    tcPercentage 0 pos x = 0 ∧
    tcPercentage tq 0 x = 0 ∧
    (submitTestTC 1 1 c8answers c8st).1
      = .ok { totalScore := 5/2, correctCount := 3, incorrectCount := 2
              unattemptedCount := 5, percentage := 25 } := by
  obtain ⟨ha, hs⟩ := tcScore_aggregate qmap pos neg answers
  refine ⟨ha, hs, ?_, ?_, ?_⟩
  · simp [tcPercentage]
  · simp [tcPercentage]
  · have hstep : (submitTestTC 1 1 c8answers c8st).1
        = .ok { totalScore :=
                  (tcScore (buildQMap c8st.questions c8attempt.questionIds)
                    c8test.positiveMarks c8test.negativeMarks
                    c8answers).totalScore
                correctCount :=
                  (tcScore (buildQMap c8st.questions c8attempt.questionIds)
                    c8test.positiveMarks c8test.negativeMarks
                    c8answers).correctCount
                incorrectCount :=
                  (tcScore (buildQMap c8st.questions c8attempt.questionIds)
                    c8test.positiveMarks c8test.negativeMarks
                    c8answers).incorrectCount
                unattemptedCount := (10 : Int) -
                  ((tcScore (buildQMap c8st.questions c8attempt.questionIds)
                    c8test.positiveMarks c8test.negativeMarks
                    c8answers).attemptedCount : Int)
                percentage := tcPercentage 10 c8test.positiveMarks
                  (tcScore (buildQMap c8st.questions c8attempt.questionIds)
                    c8test.positiveMarks c8test.negativeMarks
                    c8answers).totalScore } := rfl
    have hcc : (tcScore (buildQMap c8st.questions c8attempt.questionIds)
        c8test.positiveMarks c8test.negativeMarks
        c8answers).correctCount = 3 := rfl
    have hic : (tcScore (buildQMap c8st.questions c8attempt.questionIds)
        c8test.positiveMarks c8test.negativeMarks
        c8answers).incorrectCount = 2 := rfl
    have hac : (tcScore (buildQMap c8st.questions c8attempt.questionIds)
        c8test.positiveMarks c8test.negativeMarks
        c8answers).attemptedCount = 5 := rfl
    have hts : (tcScore (buildQMap c8st.questions c8attempt.questionIds)
        c8test.positiveMarks c8test.negativeMarks
        c8answers).totalScore = 5/2 := by
      have h := (tcScore_aggregate
        (buildQMap c8st.questions c8attempt.questionIds)
        c8test.positiveMarks c8test.negativeMarks c8answers).2
      rw [hcc, hic] at h
      rw [h]
      show (3 : Rat) * (1 : Rat) - (2 : Rat) * (1/4 : Rat) = 5/2
      norm_num
    rw [hstep, hcc, hic, hac, hts]
    have hpct : tcPercentage 10 c8test.positiveMarks (5/2 : Rat) = 25 := by
      show tcPercentage 10 (1 : Rat) (5/2 : Rat) = 25
      simp only [tcPercentage]
      norm_num
    rw [hpct]
    norm_num

/-- C8 counterexample (second controller version).  Its `submitTest`
divides by `totalQuestions * positiveMarks` with no guard: with
`positiveMarks = 0` (one question, one incorrect answer) the JS
percentage is non-finite (`none`), not the reference value 0. -/
theorem p9_percentage_missing_zero_guard :
    (p9ScoreCore 1 0 1 [(some 1, 2)]).percentage = none ∧
    (none : Option Rat) ≠ some 0 := by
  constructor
  · simp only [p9ScoreCore]
    norm_num
  · simp

/-! ## C9: blueprint assembly -/

/-- A subject's candidate pool has no duplicate ids when the question table
has none. -/
theorem subjectPool_nodup (topics : List TopicRow)
    (questions : List QuestionRow) (sid : Nat)
    (hQ : (questions.map (fun q => q.id)).Nodup) :
    (subjectPool topics questions sid).Nodup := by
  unfold subjectPool
  exact ((List.filter_sublist questions).map (fun q => q.id)).nodup hQ

/-- Candidate pools of two distinct subjects are disjoint: a question has
one topic, and a topic row (ids unique) has one subject. -/
theorem subjectPool_disjoint (topics : List TopicRow)
    (questions : List QuestionRow) (s1 s2 : Nat) (hne : s1 ≠ s2)
    (hQ : (questions.map (fun q => q.id)).Nodup)
    (hT : (topics.map (fun t => t.id)).Nodup)
    (x : Nat) (h1 : x ∈ subjectPool topics questions s1)
    (h2 : x ∈ subjectPool topics questions s2) : False := by
  unfold subjectPool at h1 h2
  obtain ⟨q1, hq1mem, hq1id⟩ := List.mem_map.mp h1
  obtain ⟨q2, hq2mem, hq2id⟩ := List.mem_map.mp h2
  rw [List.mem_filter] at hq1mem hq2mem
  obtain ⟨hq1Q, hq1p⟩ := hq1mem
  obtain ⟨hq2Q, hq2p⟩ := hq2mem
  have hq12 : q1 = q2 :=
    List.inj_on_of_nodup_map hQ hq1Q hq2Q (hq1id.trans hq2id.symm)
  subst hq12
  have hc1 : q1.topicId ∈ subjectTopicIds topics s1 := by
    have h := (Bool.and_eq_true _ _).mp hq1p
    simpa using h.1
  have hc2 : q1.topicId ∈ subjectTopicIds topics s2 := by
    have h := (Bool.and_eq_true _ _).mp hq2p
    simpa using h.1
  unfold subjectTopicIds at hc1 hc2
  obtain ⟨t1, ht1mem, ht1id⟩ := List.mem_map.mp hc1
  obtain ⟨t2, ht2mem, ht2id⟩ := List.mem_map.mp hc2
  rw [List.mem_filter] at ht1mem ht2mem
  have ht12 : t1 = t2 :=
    List.inj_on_of_nodup_map hT ht1mem.1 ht2mem.1 (ht1id.trans ht2id.symm)
  subst ht12
  have hs1 : t1.subjectId = s1 := by simpa using ht1mem.2
  have hs2 : t1.subjectId = s2 := by simpa using ht2mem.2
  exact hne (hs1.symm.trans hs2)

/-- C9.  For a blueprint `{math: 25, english: 25}` whose two subjects
each hold at least 25 active candidate questions, the assembled list has
exactly 50 question ids, no duplicates, and every id belongs (via its
topic) to one of the two subjects — for any behaviour of the JS shuffles,
which always permute their input. -/
theorem blueprint_assembly_length_nodup_membership
    (topics : List TopicRow) (questions : List QuestionRow)
    (math english : Nat) (shuffle finalShuffle : List Nat → List Nat)
    (hsh : ∀ l, (shuffle l).Perm l)
    (hfin : ∀ l, (finalShuffle l).Perm l)
    (hne : math ≠ english)
    (hQ : (questions.map (fun q => q.id)).Nodup)
    (hT : (topics.map (fun t => t.id)).Nodup)
    (hM : 25 ≤ (subjectPool topics questions math).length)
    (hE : 25 ≤ (subjectPool topics questions english).length) :
    (assembleBlueprint topics questions
        [{ subjectId := math, questionsPerTest := 25 },
         { subjectId := english, questionsPerTest := 25 }]
        shuffle finalShuffle).length = 50 ∧
    (assembleBlueprint topics questions
        [{ subjectId := math, questionsPerTest := 25 },
         { subjectId := english, questionsPerTest := 25 }]
        shuffle finalShuffle).Nodup ∧
    ∀ x ∈ assembleBlueprint topics questions
        [{ subjectId := math, questionsPerTest := 25 },
         { subjectId := english, questionsPerTest := 25 }]
        shuffle finalShuffle,
      x ∈ subjectPool topics questions math ∨
        x ∈ subjectPool topics questions english := by
  have hinner : assembleBlueprint topics questions
      [{ subjectId := math, questionsPerTest := 25 },
       { subjectId := english, questionsPerTest := 25 }]
      shuffle finalShuffle
      = finalShuffle
          ((shuffle (subjectPool topics questions math)).take 25 ++
            (shuffle (subjectPool topics questions english)).take 25) := by
    simp [assembleBlueprint]
  have hlenM : ((shuffle (subjectPool topics questions math)).take 25).length
      = 25 := by
    rw [List.length_take]
    have h := (hsh (subjectPool topics questions math)).length_eq
    omega
  have hlenE :
      ((shuffle (subjectPool topics questions english)).take 25).length
        = 25 := by
    rw [List.length_take]
    have h := (hsh (subjectPool topics questions english)).length_eq
    omega
  have hndM : ((shuffle (subjectPool topics questions math)).take 25).Nodup :=
    (List.take_sublist _ _).nodup
      ((hsh (subjectPool topics questions math)).symm.nodup
        (subjectPool_nodup topics questions math hQ))
  have hndE :
      ((shuffle (subjectPool topics questions english)).take 25).Nodup :=
    (List.take_sublist _ _).nodup
      ((hsh (subjectPool topics questions english)).symm.nodup
        (subjectPool_nodup topics questions english hQ))
  have hsubM : ∀ x ∈ (shuffle (subjectPool topics questions math)).take 25,
      x ∈ subjectPool topics questions math := fun x hx =>
    (hsh (subjectPool topics questions math)).mem_iff.mp
      (List.take_subset _ _ hx)
  have hsubE :
      ∀ x ∈ (shuffle (subjectPool topics questions english)).take 25,
        x ∈ subjectPool topics questions english := fun x hx =>
    (hsh (subjectPool topics questions english)).mem_iff.mp
      (List.take_subset _ _ hx)
  have hndCat :
      ((shuffle (subjectPool topics questions math)).take 25 ++
        (shuffle (subjectPool topics questions english)).take 25).Nodup :=
    List.Nodup.append hndM hndE
      (List.disjoint_left.mpr (fun {x} hx hex =>
        subjectPool_disjoint topics questions math english hne hQ hT x
          (hsubM x hx) (hsubE x hex)))
  have hpermF := hfin
    ((shuffle (subjectPool topics questions math)).take 25 ++
      (shuffle (subjectPool topics questions english)).take 25)
  rw [hinner]
  refine ⟨?_, ?_, ?_⟩
  · rw [hpermF.length_eq, List.length_append, hlenM, hlenE]
  · exact hpermF.symm.nodup hndCat
  · intro x hx
    rcases List.mem_append.mp (hpermF.mem_iff.mp hx) with h | h
    · exact Or.inl (hsubM x h)
    · exact Or.inr (hsubE x h)

/-- Two topics for the C9 witness: topic 1 under subject 1 (math),
topic 2 under subject 2 (english). -/
def c9topics : List TopicRow :=
  [{ id := 1, subjectId := 1, isActive := true },
   { id := 2, subjectId := 2, isActive := true }]

/-- Fifty active questions for the C9 witness: ids 1–25 under topic 1 and
ids 101–125 under topic 2. -/
def c9questions : List QuestionRow :=
  (List.range 25).map (fun i =>
    { id := i + 1, topicId := 1, correctOption := 1, isActive := true }) ++
  (List.range 25).map (fun i =>
    { id := i + 101, topicId := 2, correctOption := 1, isActive := true })

/-- Witness for C9: identity shuffles over the concrete two-subject
catalog. -/
theorem blueprint_assembly_witness :
    (1 : Nat) ≠ 2 ∧
    (c9questions.map (fun q => q.id)).Nodup ∧
    (c9topics.map (fun t => t.id)).Nodup ∧
    25 ≤ (subjectPool c9topics c9questions 1).length ∧
    25 ≤ (subjectPool c9topics c9questions 2).length ∧
    ((assembleBlueprint c9topics c9questions
        [{ subjectId := 1, questionsPerTest := 25 },
         { subjectId := 2, questionsPerTest := 25 }] id id).length = 50 ∧
      (assembleBlueprint c9topics c9questions
        [{ subjectId := 1, questionsPerTest := 25 },
         { subjectId := 2, questionsPerTest := 25 }] id id).Nodup ∧
      ∀ x ∈ assembleBlueprint c9topics c9questions
          [{ subjectId := 1, questionsPerTest := 25 },
           { subjectId := 2, questionsPerTest := 25 }] id id,
        x ∈ subjectPool c9topics c9questions 1 ∨
          x ∈ subjectPool c9topics c9questions 2) :=
  ⟨by decide, by decide, by decide, by decide, by decide,
    blueprint_assembly_length_nodup_membership c9topics c9questions 1 2
      id id (fun l => List.Perm.refl l) (fun l => List.Perm.refl l)
      (by decide) (by decide) (by decide) (by decide) (by decide)⟩

end DekhoExam
